import Mathlib

/-!
Shallow embedding of the FLAC-with-ease repository's Match Resolution &
Acquisition Pipeline (src/classes.py and src/main.py).

Pure string helpers below model Python's `in` operator on strings and
`str.split(sep)[0]` (the portion before the first occurrence of `sep`),
working over `List Char`.
-/

/-- Python `needle in hay` on character lists: some suffix of `hay` starts
with `needle`. -/
def occurs (needle : List Char) : List Char → Bool
  | [] => needle.isPrefixOf ([] : List Char)
  | c :: rest => needle.isPrefixOf (c :: rest) || occurs needle rest

/-- Characters of `hay` strictly before the first occurrence of `needle`
(the whole list when `needle` does not occur), i.e. Python
`hay.split(needle)[0]` for a nonempty `needle` that occurs in `hay`. -/
def takeUntil (needle : List Char) : List Char → List Char
  | [] => []
  | c :: rest => if needle.isPrefixOf (c :: rest) then [] else c :: takeUntil needle rest

/-- Python `needle in hay` for strings. -/
def strIn (needle hay : String) : Bool := occurs needle.data hay.data

/-- StringAnalyzer.EXCLUDE_ITEMS (src/classes.py line 60). -/
def EXCLUDE_ITEMS : List String := ["Instrumental", "Karaoke", "Originally Performed"]

/-- StringAnalyzer.SIMILARITY_VALUE (src/classes.py line 61). -/
def SIMILARITY_VALUE : Nat := 90

/-- StringAnalyzer.KEYWORDS_TO_DELETE_AFTER (src/classes.py line 62). -/
def KEYWORDS_TO_DELETE_AFTER : List String := ["feat", "(", ",", "&", "Музыка В Машину 2023"]

/-- StringAnalyzer.has_cyrillic (src/classes.py lines 64-66): Python
`re.search('[а-яА-Я]', s)` — some character lies in one of the two
code-point ranges U+0430..U+044F or U+0410..U+042F. -/
def has_cyrillic (s : String) : Bool :=
  s.data.any (fun c => ('а' ≤ c && c ≤ 'я') || ('А' ≤ c && c ≤ 'Я'))

/-- StringAnalyzer.has_word (src/classes.py lines 68-70):
`any(word in input_string for word in word_dict)`. -/
def has_word (s : String) (wordDict : List String) : Bool :=
  wordDict.any (fun w => strIn w s)

/-- StringAnalyzer.has_exception (src/classes.py lines 72-74). -/
def has_exception (s : String) : Bool := has_word s EXCLUDE_ITEMS

/-- StringAnalyzer.remove_after_keyword (src/classes.py lines 82-88): scan
the keyword list in order; at the first keyword contained in the input,
return `input.split(keyword)[0]` and stop (the `break`); otherwise return
the input unchanged. -/
def remove_after_keyword (s : String) : String :=
  match KEYWORDS_TO_DELETE_AFTER.find? (fun k => strIn k s) with
  | some k => (takeUntil k.data s.data).asString
  | none => s

/-- Word character for the word-boundary `\b` of the year regex, modeled
over the ASCII range of Python's `\w` (letters, digits, underscore). -/
def isWordChar (c : Char) : Bool := c.isAlphanum || c == '_'

/-- Whether the regex `\b\d{4}\b` matches at the current position, where
`prev` is the character just before that position (none at the start of
the string). Returns the four matched digit characters. -/
def yearHere (prev : Option Char) (l : List Char) : Option (List Char) :=
  match l with
  | a :: b :: c :: d :: rest =>
    if a.isDigit && b.isDigit && c.isDigit && d.isDigit
        && (match prev with | none => true | some p => !isWordChar p)
        && (match rest with | [] => true | e :: _ => !isWordChar e)
    then some [a, b, c, d] else none
  | _ => none

/-- Leftmost match of `\b\d{4}\b`, scanning positions left to right as
Python `re.search` does. -/
def scanYear : Option Char → List Char → Option (List Char)
  | _, [] => none
  | prev, c :: rest =>
    match yearHere prev (c :: rest) with
    | some y => some y
    | none => scanYear (some c) rest

/-- StringAnalyzer.extract_from (src/classes.py lines 90-95) applied to the
pattern `\b\d{4}\b` as in SongHandler.set_info (line 191): the first
word-bounded four-digit token of the input, or the empty string. -/
def extract_from_year (s : String) : String :=
  match scanYear none s.data with
  | some y => y.asString
  | none => ""

/-!
Data model of the pipeline: candidates parsed from the catalog search
response, the per-candidate information computed by SongHandler.set_info,
and the actions offered by the interactive prompt.
-/

/-- One well-formed entry of the search response's `tracks.items` array,
with the fields read by SongHandler.set_info (src/classes.py lines
183-192): `id`, `performer.name`, `title`, `maximum_bit_depth`,
`maximum_sampling_rate`, `copyright`. -/
structure CandidateData where
  id : Int
  performerName : String
  title : String
  maximumBitDepth : Int
  maximumSamplingRate : Int
  copyright : String
deriving DecidableEq

/-- The fields of a SongHandler after set_info (src/classes.py lines
183-192). -/
structure SongInfo where
  trackId : Int
  artist : String
  title : String
  bitDepth : Int
  samplingRate : Int
  year : String
  filename : String
deriving DecidableEq

/-- SongHandler.set_info (src/classes.py lines 183-192): copies the
candidate's fields, derives the year from the copyright text, and builds
the target filename with the f-string
`"{artist} - {title} ({year}) [FLAC] [{bit_depth}B - {sampling_rate}kHz].flac"`. -/
def set_info (d : CandidateData) : SongInfo :=
  let year := extract_from_year d.copyright
  { trackId := d.id
    artist := d.performerName
    title := d.title
    bitDepth := d.maximumBitDepth
    samplingRate := d.maximumSamplingRate
    year := year
    filename := d.performerName ++ " - " ++ d.title ++ " (" ++ year ++ ") [FLAC] ["
      ++ toString d.maximumBitDepth ++ "B - " ++ toString d.maximumSamplingRate ++ "kHz].flac" }

/-- The Action enum (src/classes.py lines 13-17); named UserAction here
because Mathlib already declares a global `Action`. -/
inductive UserAction where
  | DOWNLOAD
  | SKIP
  | EXIT
  | QUIT
deriving DecidableEq

/-- Per-candidate decision implicit in the branch structure of
process_songs (src/main.py lines 81-110). `reject` covers both the
exclusion-filter `continue` (line 83) and the low-similarity `continue`
(line 111); `alreadyExists` is the destination-file-exists branch
(lines 85-88); `needsConfirmation` is the Cyrillic branch (line 90);
`autoAccept` is the similarity branch (line 105). -/
inductive MatchDecision where
  | reject
  | alreadyExists
  | needsConfirmation
  | autoAccept
deriving DecidableEq

/-- The branch conditions of process_songs (src/main.py lines 81-110) in
source order: exclusion keyword in the candidate title, then existence of
the target filename in the destination folder, then the Cyrillic check on
either display name, then the similarity threshold
(`fuzz.token_set_ratio >= 90`, with the ratio passed in here as `ratio`). -/
def classify (existsInDest : Bool) (ratio : Nat) (nameLocal title nameJson : String) :
    MatchDecision :=
  if has_exception title then .reject
  else if existsInDest then .alreadyExists
  else if has_cyrillic nameLocal || has_cyrillic nameJson then .needsConfirmation
  else if SIMILARITY_VALUE ≤ ratio then .autoAccept
  else .reject

/-!
Orchestrator model. Effects of process_songs (src/main.py lines 66-111)
are recorded in a trace: the track ids passed to perform_download and the
number of check_and_move invocations. Python exceptions are modeled
explicitly: `PyExc.err` is any exception caught by the per-file
`except Exception` of main (src/main.py line 121), and `PyExc.systemExit`
is the `SystemExit` raised by `exit()` (src/main.py line 104), which
`except Exception` does not catch.
-/

/-- Modeled Python exception escaping process_songs. -/
inductive PyExc where
  | err (msg : String)
  | systemExit
deriving DecidableEq

/-- Terminal state of process_songs for one local file: the loop ran out
of candidates (or there were none), a download completed (`break` at
src/main.py lines 95 and 108), or the operator chose Exit (`break` at
line 101). -/
inductive Outcome where
  | noMatch
  | acquired
  | exited
deriving DecidableEq

/-- Recorded side effects of one process_songs run. -/
structure Trace where
  downloads : List Int
  moves : Nat
deriving DecidableEq

/-- External collaborators of process_songs: `File.exists` on the
destination folder, `fuzz.token_set_ratio`, the stream of validated
operator choices returned by song_handling (the k-th call returns
`actions k`; invalid console input never escapes song_handling), and
whether SongDownload.with_progress_bar completes for a track id (when it
does not, it raises, src/classes.py lines 49-57). -/
structure Env where
  existsInDest : String → Bool
  ratio : String → String → Nat
  actions : Nat → UserAction
  downloadOk : Int → Bool

/-- Control result of one iteration of the candidate loop. -/
inductive Control where
  | next (k : Nat)
  | brk (o : Outcome)
  | raise (e : PyExc)
deriving DecidableEq

/-- Effects of one iteration of the candidate loop. -/
structure StepEffect where
  downloaded : Option Int
  moved : Bool
  control : Control
deriving DecidableEq

/-- One iteration of the candidate loop of process_songs (src/main.py
lines 76-111), for candidate `c`, with `k` confirmation prompts already
consumed. Branches follow `classify`; the confirmation branch consumes
action `env.actions k` (src/main.py lines 90-104); a download failure
raises (see SongDownload.with_progress_bar entering a `None` context). -/
def stepCandidate (env : Env) (nameLocal : String) (c : CandidateData) (k : Nat) :
    StepEffect :=
  let info := set_info c
  let nameJson := info.artist ++ " - " ++ info.title
  match classify (env.existsInDest info.filename) (env.ratio nameLocal nameJson)
      nameLocal info.title nameJson with
  | .reject => { downloaded := none, moved := false, control := .next k }
  | .alreadyExists => { downloaded := none, moved := true, control := .next k }
  | .needsConfirmation =>
    match env.actions k with
    | .DOWNLOAD =>
      if env.downloadOk info.trackId then
        { downloaded := some info.trackId, moved := true, control := .brk .acquired }
      else
        { downloaded := none, moved := false, control := .raise (.err "download") }
    | .SKIP => { downloaded := none, moved := false, control := .next (k + 1) }
    | .EXIT => { downloaded := none, moved := false, control := .brk .exited }
    | .QUIT => { downloaded := none, moved := false, control := .raise .systemExit }
  | .autoAccept =>
    if env.downloadOk info.trackId then
      { downloaded := some info.trackId, moved := true, control := .brk .acquired }
    else
      { downloaded := none, moved := false, control := .raise (.err "download") }

/-- Appends one step's effects to the trace. -/
def pushTrace (tr : Trace) (s : StepEffect) : Trace :=
  { downloads := tr.downloads ++ s.downloaded.toList
    moves := tr.moves + (if s.moved then 1 else 0) }

/-- The candidate loop of process_songs (src/main.py lines 76-111):
iterate `stepCandidate` over the candidates in catalog order; falling off
the end of the list is the no-match return. -/
def processCandidates (env : Env) (nameLocal : String) :
    List CandidateData → Nat → Trace → Except PyExc (Outcome × Trace)
  | [], _, tr => .ok (.noMatch, tr)
  | c :: rest, k, tr =>
    let s := stepCandidate env nameLocal c k
    match s.control with
    | .next k1 => processCandidates env nameLocal rest k1 (pushTrace tr s)
    | .brk o => .ok (o, pushTrace tr s)
    | .raise e => .error e

/-- Python string interpolation of a possibly absent tag value:
`f"{x}"` renders Python `None` as `"None"`. -/
def pyShow : Option String → String
  | none => "None"
  | some s => s

/-- process_songs (src/main.py lines 66-111), with the extraction result
and the search result passed in as values: builds the local display name
`f"{artist_local} - {title_local}"`, returns immediately when the search
result is falsy (`None` or the empty list, line 72), and otherwise runs
the candidate loop. -/
def process_songs (env : Env) (artistLocal titleLocal : Option String)
    (songs : Option (List CandidateData)) : Except PyExc (Outcome × Trace) :=
  let nameLocal := pyShow artistLocal ++ " - " ++ pyShow titleLocal
  match songs with
  | none => .ok (.noMatch, { downloads := [], moves := 0 })
  | some [] => .ok (.noMatch, { downloads := [], moves := 0 })
  | some (c :: rest) =>
    processCandidates env nameLocal (c :: rest) 0 { downloads := [], moves := 0 }

/-!
Catalog search model (SongHandler.request, src/classes.py lines 141-172)
and fingerprint extraction model (SongHandler.extract, lines 110-139).
-/

/-- The `tracks` object of a parsed search response; `items` is absent when
the key is missing (`.get('items', [])` then yields the empty list). -/
structure TracksObj where
  items : Option (List CandidateData)
deriving DecidableEq

/-- A parsed search response body; `tracks` is absent when the key is
missing (`.get('tracks', {})` then yields an empty dict). -/
structure SearchBody where
  tracks : Option TracksObj
deriving DecidableEq

/-- What the transport layer produced for the search request:
a `requests` exception (network error, or `raise_for_status` on a
non-success status), a JSON decode error on the body, or a parsed body. -/
inductive Transport where
  | requestError (msg : String)
  | jsonError (msg : String)
  | ok (body : SearchBody)
deriving DecidableEq

/-- SongHandler.request (src/classes.py lines 141-172) on its first call
(`self._data` still `None`): on a transport or parse failure the exception
is caught, logged, and the function returns Python `None` (modeled as
`none`); on success it returns `data.get('tracks', {}).get('items', [])`. -/
def request (t : Transport) : Option (List CandidateData) :=
  match t with
  | .requestError _ => none
  | .jsonError _ => none
  | .ok body =>
    match body.tracks with
    | none => some []
    | some tr => some (tr.items.getD [])

/-- What eyed3 produced for the local file in SongHandler.extract
(src/classes.py lines 110-139): loading raised, the file has no tag
(`audiofile.tag` falsy), or a tag with possibly absent artist and title
values. -/
inductive TagLoad where
  | loadError (msg : String)
  | noTag
  | tag (artist title : Option String)
deriving DecidableEq

/-- SongHandler.extract (src/classes.py lines 110-139) with
LOOK_FOR_ORIGINAL = True (line 99). Local variables start as `None`; any
exception is caught and the current values are returned. When the tag is
present, both raw values are read first; then `remove_after_keyword` is
applied to the artist and then to the title, so a `None` artist raises
inside the `try` (leaving the raw title), and a `None` title raises after
the artist was already cleaned. -/
def extract (l : TagLoad) : Option String × Option String :=
  match l with
  | .loadError _ => (none, none)
  | .noTag => (none, none)
  | .tag a t =>
    match a, t with
    | some sa, some st => (some (remove_after_keyword sa), some (remove_after_keyword st))
    | some sa, none => (some (remove_after_keyword sa), none)
    | none, _ => (none, t)

/-!
Batch driver model (main, src/main.py lines 113-124): each source file of
the configured extension becomes one job; `except Exception` catches
`PyExc.err` and continues with the next file, while the `SystemExit` of
`exit()` is not an `Exception` and terminates the run at once.
-/

/-- Everything one process_songs call consumes for one local file: the
eyed3 load result, the search transport result, and the collaborators. -/
structure Job where
  tagLoad : TagLoad
  transport : Transport
  env : Env

/-- One per-file pipeline run of main's loop body (src/main.py lines
119-122): extract, search, then the candidate loop. -/
def processJob (j : Job) : Except PyExc (Outcome × Trace) :=
  let fp := extract j.tagLoad
  process_songs j.env fp.1 fp.2 (request j.transport)

/-- The batch loop of main (src/main.py lines 116-122): runs jobs in
order; a `PyExc.err` result is caught by `except Exception`, logged and
the loop continues; a `PyExc.systemExit` result escapes the handler and
ends the batch immediately, leaving later jobs unprocessed. Returns the
per-file results of the files that were actually processed. -/
def runBatch : List Job → List (Except PyExc (Outcome × Trace))
  | [] => []
  | j :: rest =>
    match processJob j with
    | .error .systemExit => [.error .systemExit]
    | r => r :: runBatch rest

/-- Concrete environment fixture used by witnesses: everything exists,
everything is similar, the operator always answers Download, downloads
succeed. -/
def envA : Env :=
  { existsInDest := fun _ => true, ratio := fun _ _ => 100,
    actions := fun _ => UserAction.DOWNLOAD, downloadOk := fun _ => true }

/-- Concrete candidate fixture whose title holds an exclusion keyword. -/
def candInstr : CandidateData :=
  { id := 5, performerName := "Artist", title := "Song (Instrumental)",
    maximumBitDepth := 16, maximumSamplingRate := 44, copyright := "2001 L" }

-- Decidable equality for modeled run results, so concrete runs can be
-- settled by decide.
deriving instance DecidableEq for Except

/-- Candidate fixture whose target filename is the one present in the
destination folder of `envExists`. -/
def candFirst : CandidateData :=
  { id := 1, performerName := "Artist", title := "Song",
    maximumBitDepth := 16, maximumSamplingRate := 44, copyright := "2001 L" }

/-- Candidate fixture examined after `candFirst`. -/
def candSecond : CandidateData :=
  { id := 7, performerName := "Artist", title := "Song Two",
    maximumBitDepth := 24, maximumSamplingRate := 96, copyright := "2002 L" }

/-- Environment fixture for the C2 run: exactly `candFirst`'s target
filename exists in the destination, similarity is always 100, downloads
succeed. -/
def envExists : Env :=
  { existsInDest := fun s => s == (set_info candFirst).filename
    ratio := fun _ _ => 100
    actions := fun _ => UserAction.SKIP
    downloadOk := fun _ => true }

/-- Environment fixture for the C4 run: nothing exists in the destination,
similarity is always 100, every download attempt fails. -/
def envDlFail : Env :=
  { existsInDest := fun _ => false
    ratio := fun _ _ => 100
    actions := fun _ => UserAction.SKIP
    downloadOk := fun _ => false }

/-- Environment fixture for the confirmation-route download failure: the
operator always answers Download and every download attempt fails. -/
def envConfFail : Env :=
  { existsInDest := fun _ => false
    ratio := fun _ _ => 0
    actions := fun _ => UserAction.DOWNLOAD
    downloadOk := fun _ => false }

/-- Environment fixture whose operator always answers Quit. -/
def envQuit : Env :=
  { existsInDest := fun _ => false, ratio := fun _ _ => 0,
    actions := fun _ => UserAction.QUIT, downloadOk := fun _ => true }

/-- Candidate fixture with a Cyrillic display name, forcing the
confirmation prompt. -/
def candCyr : CandidateData :=
  { id := 9, performerName := "Исполнитель", title := "Песня",
    maximumBitDepth := 24, maximumSamplingRate := 96, copyright := "2010 L" }

/-- Job fixture whose run reaches the confirmation prompt and receives
Quit. -/
def jobQuit : Job :=
  { tagLoad := TagLoad.tag (some "Исполнитель") (some "Песня")
    transport := Transport.ok { tracks := some { items := some [candCyr] } }
    env := envQuit }

/-- Whether a string contains the path-separator character of the
destination filesystem. -/
def hasSlash (s : String) : Bool := s.data.any (fun c => c == '/')

/-- Candidate fixture whose artist contains the path separator. -/
def candSlash : CandidateData :=
  { id := 42, performerName := "AC/DC", title := "Thunderstruck",
    maximumBitDepth := 24, maximumSamplingRate := 96, copyright := "1990 Sony" }

/-- Candidate fixture with the same five filename-relevant field values as
`candSlash` but a different id and a different raw copyright string. -/
def candSlash2 : CandidateData :=
  { id := 43, performerName := "AC/DC", title := "Thunderstruck",
    maximumBitDepth := 24, maximumSamplingRate := 96, copyright := "Sony 1990" }

example : strIn "feat" "A feat B" = true := by decide

example : remove_after_keyword "A, B feat C" = "A, B " := by decide

example : remove_after_keyword "Hello (Live)" = "Hello " := by decide

example : remove_after_keyword "plain" = "plain" := by decide

example : has_cyrillic "Тест" = true := by decide

example : has_cyrillic "Test" = false := by decide

example : has_exception "Song (Instrumental)" = true := by decide

example : extract_from_year "2019 Sony Music" = "2019" := by decide

example : extract_from_year "(C) 12345 x 1990" = "1990" := by decide

example : extract_from_year "no year" = "" := by decide

/-!
Helper lemmas shared by the claim theorems.
-/

/-- A job whose per-file run raised an ordinary exception is caught by
main's `except Exception` and the batch continues with the next file. -/
theorem runBatch_err_cons (j : Job) (rest : List Job) (m : String)
    (h : processJob j = .error (PyExc.err m)) :
    runBatch (j :: rest) = .error (PyExc.err m) :: runBatch rest := by
  simp [runBatch, h]

/-- A job whose per-file run raised SystemExit ends the batch: no later
job is processed. -/
theorem runBatch_systemExit_cons (j : Job) (rest : List Job)
    (h : processJob j = .error PyExc.systemExit) :
    runBatch (j :: rest) = [.error PyExc.systemExit] := by
  simp [runBatch, h]

/-- Claim C3. Corrected form: when the search fails at the transport or
parse level, SongHandler.request returns Python None (not an empty list);
process_songs treats that falsy value exactly like an empty candidate
list, so the pipeline returns the no-match outcome with no download, no
move, and no exception. -/
theorem c3_search_failure_gives_none_then_noMatch (m : String) :
    request (Transport.requestError m) = none
    ∧ request (Transport.jsonError m) = none
    ∧ (∀ env a t, process_songs env a t (request (Transport.requestError m))
        = .ok (Outcome.noMatch, { downloads := [], moves := 0 }))
    ∧ (∀ env a t, process_songs env a t (request (Transport.jsonError m))
        = .ok (Outcome.noMatch, { downloads := [], moves := 0 })) := by
  refine ⟨rfl, rfl, ?_, ?_⟩ <;> intro env a t <;> rfl

/-- Claim C3, counterexample to the claim as stated: on a non-success
HTTP status the search returns Python None, which is not the empty list. -/
theorem c3_counterexample :
    request (Transport.requestError "HTTP 500") = none
    ∧ request (Transport.requestError "HTTP 500") ≠ some ([] : List CandidateData) := by
  exact ⟨rfl, by decide⟩

/-- Claim C5, counterexample to the claim as stated: with no embedded tag
the extracted artist and title are Python None, not empty strings. -/
theorem c5_counterexample :
    extract TagLoad.noTag = (none, none)
    ∧ extract TagLoad.noTag ≠ (some "", some "") := by
  exact ⟨rfl, by decide⟩

/-- Claim C5. Corrected form: absence of tags yields None fields (not
empty strings) and is not an error; a malformed or unreadable file (eyed3
raising) likewise yields the None/None fingerprint — extract is total, so
the failure never propagates to the caller. -/
theorem c5_absent_tags_and_errors_give_none :
    extract TagLoad.noTag = (none, none)
    ∧ (∀ m, extract (TagLoad.loadError m) = (none, none)) := by
  exact ⟨rfl, fun m => rfl⟩

/-- Claim C6: when either display name contains a Cyrillic character,
classification never yields the automatic-accept branch, and when neither
the exclusion filter nor the existence check fired, the decision is the
confirmation prompt — for every similarity ratio. -/
theorem c6_cyrillic_never_autoAccept (existsInDest : Bool) (ratio : Nat)
    (nameLocal title nameJson : String)
    (hcyr : (has_cyrillic nameLocal || has_cyrillic nameJson) = true) :
    classify existsInDest ratio nameLocal title nameJson ≠ MatchDecision.autoAccept
    ∧ (has_exception title = false → existsInDest = false →
        classify existsInDest ratio nameLocal title nameJson
          = MatchDecision.needsConfirmation) := by
  unfold classify
  rw [hcyr]
  constructor
  · split_ifs <;> simp_all
  · intro h1 h2
    rw [h1, h2]
    simp

/-- Witness for the C6 theorem at a concrete Cyrillic local name. -/
theorem c6_witness :
    classify false 100 "Артист - Песня" "Song" "Artist - Song" ≠ MatchDecision.autoAccept
    ∧ (has_exception "Song" = false → false = false →
        classify false 100 "Артист - Песня" "Song" "Artist - Song"
          = MatchDecision.needsConfirmation) :=
  c6_cyrillic_never_autoAccept false 100 "Артист - Песня" "Song" "Artist - Song" (by decide)

/-- Projection of set_info: the title is copied unchanged. -/
theorem set_info_title (d : CandidateData) : (set_info d).title = d.title := rfl

/-- Projection of set_info: the artist is the performer name. -/
theorem set_info_artist (d : CandidateData) : (set_info d).artist = d.performerName := rfl

/-- Projection of set_info: the track id is the candidate id. -/
theorem set_info_trackId (d : CandidateData) : (set_info d).trackId = d.id := rfl

/-- Claim C7: a candidate whose title contains an exclusion keyword is
rejected before the existence check, the Cyrillic heuristic and the
similarity threshold are even consulted (the decision is reject for every
value of those inputs), and the orchestrator performs no download, no
move, consumes no confirmation, and simply advances to the next
candidate. -/
theorem c7_exclusion_rejects_before_everything (env : Env) (nameLocal : String)
    (c : CandidateData) (k : Nat)
    (h : has_exception c.title = true) :
    (∀ existsInDest ratio nameJson,
        classify existsInDest ratio nameLocal c.title nameJson = MatchDecision.reject)
    ∧ stepCandidate env nameLocal c k
        = { downloaded := none, moved := false, control := Control.next k }
    ∧ (∀ rest tr, processCandidates env nameLocal (c :: rest) k tr
        = processCandidates env nameLocal rest k tr) := by
  have hcl : ∀ existsInDest ratio nameJson,
      classify existsInDest ratio nameLocal c.title nameJson = MatchDecision.reject := by
    intro e r nj
    unfold classify
    rw [h]
    simp
  have hstep : stepCandidate env nameLocal c k
      = { downloaded := none, moved := false, control := Control.next k } := by
    simp only [stepCandidate, set_info_title]
    rw [hcl]
  refine ⟨hcl, hstep, ?_⟩
  intro rest tr
  cases tr with
  | mk dls mvs =>
    simp [processCandidates, hstep, pushTrace]

/-- Witness for the C7 theorem at a concrete instrumental candidate. -/
theorem c7_witness :
    (∀ existsInDest ratio nameJson,
        classify existsInDest ratio "Artist - Song" candInstr.title nameJson
          = MatchDecision.reject)
    ∧ stepCandidate envA "Artist - Song" candInstr 0
        = { downloaded := none, moved := false, control := Control.next 0 }
    ∧ (∀ rest tr, processCandidates envA "Artist - Song" (candInstr :: rest) 0 tr
        = processCandidates envA "Artist - Song" rest 0 tr) :=
  c7_exclusion_rejects_before_everything envA "Artist - Song" candInstr 0 (by decide)

/-- Claim C10: one candidate-loop iteration invokes check_and_move exactly
when the candidate was not excluded and either its target filename already
exists in the destination (the already-acquired path) or the step ends
with a completed download (the acquired break). On every other path —
exclusion, low-similarity rejection, operator Skip, operator Exit, and a
failed download attempt (the raise) — the local source file is untouched.
A step that ends acquired also downloaded exactly this candidate's id. -/
theorem c10_move_only_after_acquired_or_existing (env : Env) (nameLocal : String)
    (c : CandidateData) (k : Nat) :
    ((stepCandidate env nameLocal c k).moved = true ↔
      (has_exception c.title = false ∧
        (env.existsInDest (set_info c).filename = true
          ∨ (stepCandidate env nameLocal c k).control = Control.brk Outcome.acquired)))
    ∧ ((stepCandidate env nameLocal c k).control = Control.brk Outcome.acquired →
        (stepCandidate env nameLocal c k).downloaded = some c.id)
    ∧ (∀ e, (stepCandidate env nameLocal c k).control = Control.raise e →
        (stepCandidate env nameLocal c k).moved = false) := by
  simp only [stepCandidate, classify, set_info_title, set_info_trackId]
  split_ifs with h1 h2 h3 h4 <;> cases ha : env.actions k <;> simp_all

/-- Witness for the C10 theorem at a concrete candidate and environment. -/
theorem c10_witness :
    ((stepCandidate envA "Artist - Song" candInstr 0).moved = true ↔
      (has_exception candInstr.title = false ∧
        (envA.existsInDest (set_info candInstr).filename = true
          ∨ (stepCandidate envA "Artist - Song" candInstr 0).control
              = Control.brk Outcome.acquired)))
    ∧ ((stepCandidate envA "Artist - Song" candInstr 0).control
          = Control.brk Outcome.acquired →
        (stepCandidate envA "Artist - Song" candInstr 0).downloaded = some candInstr.id)
    ∧ (∀ e, (stepCandidate envA "Artist - Song" candInstr 0).control = Control.raise e →
        (stepCandidate envA "Artist - Song" candInstr 0).moved = false) :=
  c10_move_only_after_acquired_or_existing envA "Artist - Song" candInstr 0

/-- Claim C2, counterexample to the claim as stated: the first candidate's
target filename exists in the destination and the candidate is not
excluded, yet the run does not stop there — it moves the local file, goes
on to examine the second candidate, downloads it (track id 7), moves
again, and ends acquired. The existence hit is handled with `continue`,
not as a terminal outcome. -/
theorem c2_counterexample :
    processCandidates envExists "Artist - Song" [candFirst, candSecond] 0
        { downloads := [], moves := 0 }
      = .ok (Outcome.acquired, { downloads := [7], moves := 2 }) := by
  decide

/-- Claim C2. Corrected form: when a non-excluded candidate's exact target
filename already exists in the destination directory, the orchestrator
performs the local-file state transition and does not download that
candidate, but then continues the loop with the remaining candidates at
the same confirmation index — processing of the file does not end there. -/
theorem c2_existing_file_moves_then_continues (env : Env) (nameLocal : String)
    (c : CandidateData) (rest : List CandidateData) (k : Nat) (tr : Trace)
    (hexc : has_exception c.title = false)
    (hex : env.existsInDest (set_info c).filename = true) :
    stepCandidate env nameLocal c k
        = { downloaded := none, moved := true, control := Control.next k }
    ∧ processCandidates env nameLocal (c :: rest) k tr
        = processCandidates env nameLocal rest k
            { downloads := tr.downloads, moves := tr.moves + 1 } := by
  have hstep : stepCandidate env nameLocal c k
      = { downloaded := none, moved := true, control := Control.next k } := by
    simp only [stepCandidate, classify, set_info_title]
    rw [hexc, hex]
    simp
  refine ⟨hstep, ?_⟩
  cases tr with
  | mk dls mvs =>
    simp [processCandidates, hstep, pushTrace]

/-- Witness for the C2 corrected theorem at the concrete fixtures. -/
theorem c2_witness :
    stepCandidate envExists "Artist - Song" candFirst 0
        = { downloaded := none, moved := true, control := Control.next 0 }
    ∧ processCandidates envExists "Artist - Song" (candFirst :: [candSecond]) 0
          { downloads := [], moves := 0 }
        = processCandidates envExists "Artist - Song" [candSecond] 0
            { downloads := [], moves := 0 + 1 } :=
  c2_existing_file_moves_then_continues envExists "Artist - Song" candFirst [candSecond] 0
    { downloads := [], moves := 0 } (by decide) (by decide)

/-- Claim C4, counterexample to the claim as stated: the first candidate
is auto-accepted, its download fails, and the run ends with the raised
exception — the loop does not continue to the second candidate (which
would have been downloadable only in a run that kept going; here the
result is the error, with nothing downloaded and nothing moved). -/
theorem c4_counterexample :
    processCandidates envDlFail "Artist - Song" [candFirst, candSecond] 0
        { downloads := [], moves := 0 }
      = .error (PyExc.err "download") := by
  decide

/-- Claim C4. Corrected form: whenever a download is attempted for a
candidate and fails — on the automatic-accept route, or on the
confirmation route when the operator answered Download — the failure
raises out of the candidate loop, aborting processing of the whole file;
the exception is caught and logged at the per-file boundary of main, and
the batch continues with the next local file (not the next candidate of
the same file). -/
theorem c4_download_failure_aborts_file (env : Env) (nameLocal : String)
    (c : CandidateData) (rest : List CandidateData) (k : Nat) (tr : Trace)
    (hexc : has_exception c.title = false)
    (hex : env.existsInDest (set_info c).filename = false)
    (haccept :
      ((has_cyrillic nameLocal || has_cyrillic (c.performerName ++ " - " ++ c.title)) = true
          ∧ env.actions k = UserAction.DOWNLOAD)
        ∨ ((has_cyrillic nameLocal || has_cyrillic (c.performerName ++ " - " ++ c.title)) = false
          ∧ SIMILARITY_VALUE ≤ env.ratio nameLocal (c.performerName ++ " - " ++ c.title)))
    (hdl : env.downloadOk c.id = false) :
    processCandidates env nameLocal (c :: rest) k tr = .error (PyExc.err "download")
    ∧ (∀ j rest2 m, processJob j = .error (PyExc.err m) →
        runBatch (j :: rest2) = .error (PyExc.err m) :: runBatch rest2) := by
  have hstep : stepCandidate env nameLocal c k
      = { downloaded := none, moved := false,
          control := Control.raise (PyExc.err "download") } := by
    rcases haccept with ⟨hcyr, hact⟩ | ⟨hcyr, hsim⟩
    · simp only [stepCandidate, classify, set_info_title, set_info_artist, set_info_trackId]
      rw [hexc, hex, hcyr, hact]
      simp [hdl]
    · simp only [stepCandidate, classify, set_info_title, set_info_artist, set_info_trackId]
      rw [hexc, hex, hcyr]
      simp [hsim, hdl]
  refine ⟨?_, fun j rest2 m hj => runBatch_err_cons j rest2 m hj⟩
  simp [processCandidates, hstep]

/-- Witness for the C4 corrected theorem on the confirmation route: a
Cyrillic candidate, the operator answers Download, the download fails, and
the run for the file ends with the raised error. -/
theorem c4_witness :
    processCandidates envConfFail "Исполнитель - Песня" (candCyr :: [candCyr]) 0
        { downloads := [], moves := 0 } = .error (PyExc.err "download")
    ∧ (∀ j rest2 m, processJob j = .error (PyExc.err m) →
        runBatch (j :: rest2) = .error (PyExc.err m) :: runBatch rest2) :=
  c4_download_failure_aborts_file envConfFail "Исполнитель - Песня" candCyr [candCyr] 0
    { downloads := [], moves := 0 } (by decide) (by decide)
    (Or.inl ⟨by decide, rfl⟩) (by decide)

/-- Claim C8: the Quit answer raises SystemExit out of the candidate loop;
that exception is the one failure the per-file boundary of main does not
catch (ordinary exceptions are caught there and the batch continues), so
the whole batch stops at this file and no later file is processed. -/
theorem c8_quit_terminates_batch (j : Job) (rest : List Job)
    (h : processJob j = .error PyExc.systemExit) :
    runBatch (j :: rest) = [.error PyExc.systemExit]
    ∧ (∀ j2 rest2 m, processJob j2 = .error (PyExc.err m) →
        runBatch (j2 :: rest2) = .error (PyExc.err m) :: runBatch rest2)
    ∧ (∀ env nameLocal c crest k tr,
        has_exception c.title = false →
        env.existsInDest (set_info c).filename = false →
        (has_cyrillic nameLocal
          || has_cyrillic (c.performerName ++ " - " ++ c.title)) = true →
        env.actions k = UserAction.QUIT →
        processCandidates env nameLocal (c :: crest) k tr = .error PyExc.systemExit) := by
  refine ⟨runBatch_systemExit_cons j rest h,
    fun j2 r2 m hj => runBatch_err_cons j2 r2 m hj, ?_⟩
  intro env nameLocal c crest k tr hexc hex hcyr hact
  have hstep : stepCandidate env nameLocal c k
      = { downloaded := none, moved := false, control := Control.raise PyExc.systemExit } := by
    simp only [stepCandidate, classify, set_info_title, set_info_artist, set_info_trackId]
    rw [hexc, hex, hcyr, hact]
    simp
  simp [processCandidates, hstep]

/-- Witness for the C8 theorem: a batch of two files where the first run
answers Quit processes only the first file. -/
theorem c8_witness :
    runBatch (jobQuit :: [jobQuit]) = [.error PyExc.systemExit]
    ∧ (∀ j2 rest2 m, processJob j2 = .error (PyExc.err m) →
        runBatch (j2 :: rest2) = .error (PyExc.err m) :: runBatch rest2)
    ∧ (∀ env nameLocal c crest k tr,
        has_exception c.title = false →
        env.existsInDest (set_info c).filename = false →
        (has_cyrillic nameLocal
          || has_cyrillic (c.performerName ++ " - " ++ c.title)) = true →
        env.actions k = UserAction.QUIT →
        processCandidates env nameLocal (c :: crest) k tr = .error PyExc.systemExit) :=
  c8_quit_terminates_batch jobQuit [jobQuit] (by decide)

/-- Unfolding lemma: the characters of `l.asString` are `l`. -/
theorem data_asString (l : List Char) : l.asString.data = l := rfl

/-- When the needle occurs in `l`, `l` splits as the kept prefix of
`takeUntil` followed by a remainder that starts with the needle. -/
theorem takeUntil_split (needle : List Char) :
    ∀ l, occurs needle l = true →
      ∃ r, l = takeUntil needle l ++ r ∧ needle.isPrefixOf r = true := by
  intro l
  induction l with
  | nil =>
    intro h
    exact ⟨[], rfl, by simpa [occurs] using h⟩
  | cons c rest ih =>
    intro h
    cases hp : needle.isPrefixOf (c :: rest) with
    | true => exact ⟨c :: rest, by simp [takeUntil, hp], hp⟩
    | false =>
      have hocc : occurs needle rest = true := by
        have h2 : (needle.isPrefixOf (c :: rest) || occurs needle rest) = true := h
        rw [hp] at h2
        simpa using h2
      obtain ⟨r, hr, hpr⟩ := ih hocc
      refine ⟨r, ?_, hpr⟩
      have hcons : takeUntil needle (c :: rest) = c :: takeUntil needle rest := by
        simp [takeUntil, hp]
      rw [hcons, List.cons_append, ← hr]

/-- The prefix kept by `takeUntil` is at most as long as the part before
any occurrence of the needle: the truncation happens at the first
occurrence. -/
theorem takeUntil_min (needle : List Char) :
    ∀ p l r, l = p ++ r → needle.isPrefixOf r = true →
      (takeUntil needle l).length ≤ p.length := by
  intro p
  induction p with
  | nil =>
    intro l r hl hr
    simp only [List.nil_append] at hl
    subst hl
    cases l with
    | nil => simp [takeUntil]
    | cons c rest => simp [takeUntil, hr]
  | cons c p2 ih =>
    intro l r hl hr
    subst hl
    cases hp : needle.isPrefixOf (c :: (p2 ++ r)) with
    | true =>
      have hnil : takeUntil needle (c :: (p2 ++ r)) = [] := by
        simp [takeUntil, hp]
      rw [List.cons_append, hnil]
      simp
    | false =>
      have hlen := ih (p2 ++ r) r rfl hr
      have hcons : takeUntil needle (c :: (p2 ++ r)) = c :: takeUntil needle (p2 ++ r) := by
        simp [takeUntil, hp]
      rw [List.cons_append, hcons]
      simpa using Nat.succ_le_succ hlen

/-- `List.find?` returns the listed element at the least index whose
predicate holds. -/
theorem find?_eq_of_first (p : String → Bool) :
    ∀ (ks : List String) (i : Nat) (k : String), ks.get? i = some k → p k = true →
      (∀ j k2, j < i → ks.get? j = some k2 → p k2 = false) →
      ks.find? p = some k := by
  intro ks
  induction ks with
  | nil =>
    intro i k hk
    simp at hk
  | cons k0 ks2 ih =>
    intro i k hk hp hmin
    cases i with
    | zero =>
      simp only [List.get?_cons_zero, Option.some.injEq] at hk
      subst hk
      simp [List.find?, hp]
    | succ i2 =>
      have h0 : p k0 = false := hmin 0 k0 (Nat.succ_pos i2) rfl
      simp only [List.get?_cons_succ] at hk
      rw [List.find?_cons, h0]
      exact ih i2 k hk hp (fun j k2 hj hg => hmin (j + 1) k2 (Nat.succ_lt_succ hj) hg)

/-- Claim C9: remove_after_keyword scans the keyword list in its fixed
order and truncates at the first listed keyword occurring anywhere in the
string: when `k` is the least-index keyword that occurs, the result is
exactly the portion of the input strictly before the first occurrence of
`k` (it is a prefix whose remainder starts with `k`, and no shorter such
split exists), one truncation is applied per call, and a string containing
no keyword at all is returned unchanged. -/
theorem c9_keyword_priority_truncation (s k : String) (i : Nat)
    (hk : KEYWORDS_TO_DELETE_AFTER.get? i = some k)
    (hocc : strIn k s = true)
    (hmin : ∀ j k2, j < i → KEYWORDS_TO_DELETE_AFTER.get? j = some k2 →
      strIn k2 s = false) :
    remove_after_keyword s = (takeUntil k.data s.data).asString
    ∧ (∃ r, s.data = (remove_after_keyword s).data ++ r ∧ k.data.isPrefixOf r = true)
    ∧ (∀ p r, s.data = p ++ r → k.data.isPrefixOf r = true →
        (remove_after_keyword s).data.length ≤ p.length)
    ∧ (∀ s2 : String, (∀ k2 ∈ KEYWORDS_TO_DELETE_AFTER, strIn k2 s2 = false) →
        remove_after_keyword s2 = s2) := by
  have hfind : KEYWORDS_TO_DELETE_AFTER.find? (fun k2 => strIn k2 s) = some k :=
    find?_eq_of_first _ KEYWORDS_TO_DELETE_AFTER i k hk hocc hmin
  have heq : remove_after_keyword s = (takeUntil k.data s.data).asString := by
    simp [remove_after_keyword, hfind]
  have hdata : (remove_after_keyword s).data = takeUntil k.data s.data := by
    rw [heq, data_asString]
  refine ⟨heq, ?_, ?_, ?_⟩
  · obtain ⟨r, hr, hpr⟩ := takeUntil_split k.data s.data hocc
    exact ⟨r, by rw [hdata]; exact hr, hpr⟩
  · intro p r hpr hpre
    rw [hdata]
    exact takeUntil_min k.data p s.data r hpr hpre
  · intro s2 hall
    have hnone : KEYWORDS_TO_DELETE_AFTER.find? (fun k2 => strIn k2 s2) = none := by
      rw [List.find?_eq_none]
      intro x hx
      simp [hall x hx]
    simp [remove_after_keyword, hnone]

/-- Witness for the C9 theorem: in "A, B feat C" both "feat" and ","
occur; "feat" is earlier in the keyword list and wins even though ","
occurs earlier in the string. -/
theorem c9_witness :
    remove_after_keyword "A, B feat C" = (takeUntil "feat".data "A, B feat C".data).asString
    ∧ (∃ r, "A, B feat C".data = (remove_after_keyword "A, B feat C").data ++ r
        ∧ "feat".data.isPrefixOf r = true)
    ∧ (∀ p r, "A, B feat C".data = p ++ r → "feat".data.isPrefixOf r = true →
        (remove_after_keyword "A, B feat C").data.length ≤ p.length)
    ∧ (∀ s2 : String, (∀ k2 ∈ KEYWORDS_TO_DELETE_AFTER, strIn k2 s2 = false) →
        remove_after_keyword s2 = s2) :=
  c9_keyword_priority_truncation "A, B feat C" "feat" 0 rfl (by decide)
    (fun j k2 hj _ => absurd hj (Nat.not_lt_zero j))

/-- The digit characters produced for values below ten are decimal
digits. -/
theorem digitChar_isDigit (n : Nat) (h : n < 10) : (Nat.digitChar n).isDigit = true := by
  interval_cases n <;> decide

/-- Every character accumulated by the base-ten digit printer is a decimal
digit. -/
theorem toDigitsCore_digits :
    ∀ (fuel n : Nat) (acc : List Char), (∀ c ∈ acc, c.isDigit = true) →
      ∀ c ∈ Nat.toDigitsCore 10 fuel n acc, c.isDigit = true := by
  intro fuel
  induction fuel with
  | zero =>
    intro n acc hacc c hc
    exact hacc c (by simpa [Nat.toDigitsCore] using hc)
  | succ f ih =>
    intro n acc hacc c hc
    simp only [Nat.toDigitsCore] at hc
    have hacc2 : ∀ c2 ∈ (Nat.digitChar (n % 10) :: acc), c2.isDigit = true := by
      intro c2 hc2
      rcases List.mem_cons.mp hc2 with h | h
      · rw [h]
        exact digitChar_isDigit (n % 10) (Nat.mod_lt n (by decide))
      · exact hacc c2 h
    by_cases h0 : n / 10 = 0
    · rw [if_pos h0] at hc
      exact hacc2 c hc
    · rw [if_neg h0] at hc
      exact ih (n / 10) (Nat.digitChar (n % 10) :: acc) hacc2 c hc

/-- Every character of a natural number's decimal representation is a
digit. -/
theorem natRepr_digits (n : Nat) : ∀ c ∈ (Nat.repr n).data, c.isDigit = true := by
  intro c hc
  have hmem : c ∈ Nat.toDigitsCore 10 (n + 1) n [] := by
    simpa [Nat.repr, Nat.toDigits, data_asString] using hc
  exact toDigitsCore_digits (n + 1) n [] (by simp) c hmem

/-- hasSlash distributes over string concatenation. -/
theorem hasSlash_append (s t : String) : hasSlash (s ++ t) = (hasSlash s || hasSlash t) := by
  simp [hasSlash]

/-- A natural number's decimal representation contains no path
separator. -/
theorem hasSlash_natRepr (n : Nat) : hasSlash (Nat.repr n) = false := by
  simp only [hasSlash, List.any_eq_false]
  intro c hc
  have hd := natRepr_digits n c hc
  simp only [beq_iff_eq]
  intro heq
  rw [heq] at hd
  exact absurd hd (by decide)

/-- An integer's printed form contains no path separator. -/
theorem hasSlash_intToString (i : Int) : hasSlash (toString i) = false := by
  cases i with
  | ofNat m =>
    have h : toString (Int.ofNat m) = Nat.repr m := rfl
    rw [h, hasSlash_natRepr]
  | negSucc m =>
    have h : toString (Int.negSucc m) = "-" ++ Nat.repr (m + 1) := rfl
    rw [h, hasSlash_append, hasSlash_natRepr]
    decide

/-- A successful year match consists of digit characters only. -/
theorem yearHere_digits (prev : Option Char) (l y : List Char)
    (h : yearHere prev l = some y) : ∀ c ∈ y, c.isDigit = true := by
  unfold yearHere at h
  split at h
  · rename_i a b c2 d rest
    split at h
    · rename_i hcond
      simp only [Bool.and_eq_true] at hcond
      obtain ⟨⟨⟨⟨⟨ha, hb⟩, hc2⟩, hd⟩, _⟩, _⟩ := hcond
      cases h
      intro x hx
      simp only [List.mem_cons, List.not_mem_nil, or_false] at hx
      rcases hx with rfl | rfl | rfl | rfl <;> assumption
    · exact absurd h (by simp)
  · exact absurd h (by simp)

/-- The year scanner only ever returns digit characters. -/
theorem scanYear_digits :
    ∀ (prev : Option Char) (l y : List Char), scanYear prev l = some y →
      ∀ c ∈ y, c.isDigit = true := by
  intro prev l
  induction l generalizing prev with
  | nil =>
    intro y h
    simp [scanYear] at h
  | cons c rest ih =>
    intro y h
    unfold scanYear at h
    cases hy : yearHere prev (c :: rest) with
    | some y2 =>
      rw [hy] at h
      cases h
      exact yearHere_digits prev (c :: rest) y hy
    | none =>
      rw [hy] at h
      exact ih (some c) y h

/-- The extracted year string contains no path separator. -/
theorem extract_from_year_no_slash (s : String) : hasSlash (extract_from_year s) = false := by
  unfold extract_from_year
  cases hy : scanYear none s.data with
  | none => decide
  | some y =>
    simp only [hasSlash, data_asString, List.any_eq_false]
    intro c hc
    have hd := scanYear_digits none s.data y hy c hc
    simp only [beq_iff_eq]
    intro heq
    rw [heq] at hd
    exact absurd hd (by decide)

/-- Claim C1, counterexample to the claim as stated: set_info performs no
sanitization, so an artist containing the path separator puts it straight
into the target filename. -/
theorem c1_counterexample : hasSlash (set_info candSlash).filename = true := by
  decide

/-- Claim C1. Corrected form: the target filename is a pure function of
artist, title, derived year, bit depth and sample rate (candidates
agreeing on those — even with different ids and different raw copyright
strings — get the identical filename), but path separators are not
sanitized: the filename contains a separator exactly when the artist or
the title contains one (the derived year and the printed numbers never
do). -/
theorem c1_filename_deterministic_no_sanitization (d d2 : CandidateData)
    (ha : d.performerName = d2.performerName) (ht : d.title = d2.title)
    (hy : extract_from_year d.copyright = extract_from_year d2.copyright)
    (hb : d.maximumBitDepth = d2.maximumBitDepth)
    (hs : d.maximumSamplingRate = d2.maximumSamplingRate) :
    (set_info d).filename = (set_info d2).filename
    ∧ hasSlash (set_info d).filename = (hasSlash d.performerName || hasSlash d.title) := by
  constructor
  · simp only [set_info]
    rw [ha, ht, hy, hb, hs]
  · have l1 : hasSlash " - " = false := by decide
    have l2 : hasSlash " (" = false := by decide
    have l3 : hasSlash ") [FLAC] [" = false := by decide
    have l4 : hasSlash "B - " = false := by decide
    have l5 : hasSlash "kHz].flac" = false := by decide
    simp only [set_info, hasSlash_append, extract_from_year_no_slash, hasSlash_intToString,
      l1, l2, l3, l4, l5, Bool.or_false, Bool.false_or]

/-- Witness for the C1 corrected theorem: two candidates with different
ids and different copyright strings that extract the same year get the
same filename, and that filename inherits the separator of its artist. -/
theorem c1_witness :
    (set_info candSlash).filename = (set_info candSlash2).filename
    ∧ hasSlash (set_info candSlash).filename
        = (hasSlash candSlash.performerName || hasSlash candSlash.title) :=
  c1_filename_deterministic_no_sanitization candSlash candSlash2
    rfl rfl (by decide) rfl rfl
